import Mathlib

/-!
# Verification of the ashlock booking core

Shallow embedding of the booking subsystem of the `ashlock` repository:
the availability engine (`BookingModel.getAvailableSlots`), booking
creation (`BookingService.createBooking` / `BookingModel.create`), the
generic update path (`BookingModel.update`), date-range queries
(`BookingModel.getBookingsByDateRange`) and the statistics aggregate
(`BookingModel.getBookingStats`).

The database is modelled as in-memory lists of service and booking
records; knex `where(...).first()` becomes `List.filter` followed by
`head?`, multi-row queries become `List.filter` (plus `mergeSort` where
the source orders results).  JavaScript number division (`duration / 60`)
is modelled on `ℚ`; for the integer hours and minute durations involved
the float and rational comparisons agree.
-/

namespace Ashlock

/-- Booking status enum, from the `bookings` table migration
(`pending, confirmed, in_progress, completed, cancelled, no_show`). -/
inductive BookingStatus where
  | pending
  | confirmed
  | in_progress
  | completed
  | cancelled
  | no_show
deriving DecidableEq, Repr

/-- Priority enum, from the `bookings` table migration
(`low, medium, high, emergency`). -/
inductive Priority where
  | low
  | medium
  | high
  | emergency
deriving DecidableEq, Repr

/-- A row of the `services` table (fields relevant to the booking core),
from the services migration and `getAvailableSlots`'s query. -/
structure Service where
  id : Nat
  name : String
  base_price : ℚ
  estimated_duration : Nat
  is_active : Bool
  is_available_for_booking : Bool
deriving DecidableEq, Repr

/-- A row of the `bookings` table, from the `create_bookings` migration. -/
structure Booking where
  id : Nat
  user_id : Option Nat
  service_id : Nat
  service : String
  service_type : String
  booking_date : String
  booking_time : String
  duration : Nat
  status : BookingStatus
  priority : Priority
  customer_name : String
  customer_phone : String
  customer_email : String
  service_address : String
  service_description : Option String
  special_instructions : Option String
  estimated_cost : Option ℚ
  actual_cost : Option ℚ
  assigned_technician : Option String
  notes : Option String
  confirmed_at : Option Nat
  started_at : Option Nat
  completed_at : Option Nat
  created_at : Nat
  updated_at : Nat
deriving DecidableEq, Repr

/-- The persistent store: the `services` and `bookings` tables. -/
structure Store where
  services : List Service
  bookings : List Booking
deriving Repr

/-- The characters of `t.split(':')[0]`: everything before the first
`':'`. -/
def beforeColon (cs : List Char) : List Char :=
  match cs with
  | [] => []
  | c :: rest => if c = ':' then [] else c :: beforeColon rest

/-- `parseInt` on a string of digits: the value of the maximal digit
prefix. -/
def digitsVal (cs : List Char) : Nat :=
  (cs.takeWhile Char.isDigit).foldl (fun n c => 10 * n + (c.toNat - 48)) 0

/-- `parseInt(t.split(':')[0])`: the integer hour of an `"HH:MM"` time
string, truncating the minutes (time strings in this model are
well-formed, so `parseInt`'s `NaN` case does not arise). -/
def hourOf (t : String) : Nat :=
  digitsVal (beforeColon t.toList)

/-- `hour.toString().padStart(2, '0')`. -/
def padHour (h : Nat) : String :=
  if h < 10 then "0" ++ toString h else toString h

/-- The fixed candidate grid of `getAvailableSlots`: one slot per whole
hour for `hour = startHour; hour < endHour` with `startHour = 9`,
`endHour = 17`. -/
def timeSlots : List String :=
  (List.range' 9 8).map (fun h => padHour h ++ ":00")

/-- One entry of the availability result: `{ time, available }`. -/
structure Slot where
  time : String
  available : Bool
deriving DecidableEq, Repr

/-- The service lookup of `getAvailableSlots`:
`db('services').where('name', service).where('is_active', true)
.where('is_available_for_booking', true).first()`. -/
def resolveService (services : List Service) (service : String) : Option Service :=
  (services.filter fun s =>
    s.name == service && s.is_active && s.is_available_for_booking).head?

/-- The bookings query of `getAvailableSlots`:
`db('bookings').where('booking_date', date).where('service', service)
.whereNotIn('status', ['cancelled', 'no_show'])`. -/
def fetchBookings (bookings : List Booking) (service date : String) : List Booking :=
  bookings.filter fun b =>
    b.booking_date == date && b.service == service &&
      !(b.status == .cancelled || b.status == .no_show)

/-- The conflict test of `getAvailableSlots` for one slot:
`slotStart < bookingEnd && slotEnd > bookingHour` over the fetched
bookings, with `slotEnd = slotStart + duration/60` and
`bookingEnd = bookingHour + booking.duration/60` (number division,
modelled on `ℚ`). -/
def hasConflict (duration : Nat) (existing : List Booking) (slotTime : String) : Bool :=
  let slotStart : ℚ := hourOf slotTime
  let slotEnd : ℚ := slotStart + duration / 60
  existing.any fun b =>
    let bookingHour : ℚ := hourOf b.booking_time
    let bookingEnd : ℚ := bookingHour + b.duration / 60
    decide (slotStart < bookingEnd) && decide (slotEnd > bookingHour)

/-- Error taxonomy of the booking core. -/
inductive BErr where
  | serviceNotAvailable
  | serviceNotFound
  | slotUnavailable
  | bookingNotFound
deriving DecidableEq, Repr

/-- `BookingModel.getAvailableSlots(service, date)`: resolve the service
(active and bookable), build the 9–16 hour grid, fetch the non-cancelled
bookings for the same service name and date, and mark each slot
unavailable when it conflicts with some fetched booking. -/
def getAvailableSlots (st : Store) (service date : String) :
    Except BErr (List Slot) :=
  match resolveService st.services service with
  | none => .error .serviceNotAvailable
  | some serviceData =>
      let duration := serviceData.estimated_duration
      let existing := fetchBookings st.bookings service date
      .ok (timeSlots.map fun t =>
        { time := t, available := !hasConflict duration existing t })

/-- `CreateBookingRequest` from `src/types` (optional fields as `Option`). -/
structure CreateBookingRequest where
  service : String
  serviceType : String
  bookingDate : String
  bookingTime : String
  customerName : String
  customerPhone : String
  customerEmail : String
  serviceAddress : String
  serviceDescription : Option String := none
  specialInstructions : Option String := none
  priority : Option Priority := none
deriving Repr

/-- The service lookup of `BookingModel.create`:
`db('services').where('name', bookingData.service).first()` (no
active/bookable filter on this path). -/
def findServiceByName (services : List Service) (name : String) : Option Service :=
  (services.filter fun s => s.name == name).head?

/-- `BookingModel.create(bookingData, userId)`: resolve the service by
name, then insert a booking row with `duration` and `estimated_cost`
copied from the service, `priority` defaulted to `medium`, and the
table defaults (`status = pending`, null costs/notes/timestamps) for the
columns the insert omits.  `newId` is the generated primary key and
`now` the insert timestamp. -/
def newBookingRecord (req : CreateBookingRequest) (userId : Option Nat)
    (service : Service) (newId now : Nat) : Booking where
  id := newId
  user_id := userId
  service_id := service.id
  service := req.service
  service_type := req.serviceType
  booking_date := req.bookingDate
  booking_time := req.bookingTime
  duration := service.estimated_duration
  status := .pending
  priority := req.priority.getD .medium
  customer_name := req.customerName
  customer_phone := req.customerPhone
  customer_email := req.customerEmail
  service_address := req.serviceAddress
  service_description := req.serviceDescription
  special_instructions := req.specialInstructions
  estimated_cost := some service.base_price
  actual_cost := none
  assigned_technician := none
  notes := none
  confirmed_at := none
  started_at := none
  completed_at := none
  created_at := now
  updated_at := now

def BookingModel.create (st : Store) (req : CreateBookingRequest) (userId : Option Nat)
    (newId now : Nat) : Except BErr (Booking × Store) :=
  match findServiceByName st.services req.service with
  | none => .error .serviceNotFound
  | some service =>
      let b : Booking := newBookingRecord req userId service newId now
      .ok (b, { st with bookings := st.bookings ++ [b] })

/-- `BookingService.createBooking(bookingData, userId)`: compute the
availability of the requested service/date, reject with
`SlotUnavailable` when the requested time is absent from the slot list
or marked unavailable, otherwise insert via `BookingModel.create`.  The
returned store is the store after the call (unchanged on every error
path). -/
def createBooking (st : Store) (req : CreateBookingRequest) (userId : Option Nat)
    (newId now : Nat) : Except BErr Booking × Store :=
  match getAvailableSlots st req.service req.bookingDate with
  | .error e => (.error e, st)
  | .ok availableSlots =>
      match availableSlots.find? (fun slot => slot.time == req.bookingTime) with
      | none => (.error .slotUnavailable, st)
      | some requestedTimeSlot =>
          if !requestedTimeSlot.available then (.error .slotUnavailable, st)
          else
            match BookingModel.create st req userId newId now with
            | .error e => (.error e, st)
            | .ok (b, st2) => (.ok b, st2)

/-- `UpdateBookingRequest` from `src/types` (all fields optional). -/
structure UpdateBookingRequest where
  status : Option BookingStatus := none
  bookingDate : Option String := none
  bookingTime : Option String := none
  serviceDescription : Option String := none
  specialInstructions : Option String := none
  priority : Option Priority := none
  estimatedCost : Option ℚ := none
  actualCost : Option ℚ := none
  assignedTechnician : Option String := none
  notes : Option String := none
deriving Repr

/-- `if (updates.field) updateData.col = updates.field` for a mandatory
string column: a supplied value overwrites only when truthy (present and
non-empty). -/
def updField (old : String) (new? : Option String) : String :=
  match new? with
  | some s => if s == "" then old else s
  | none => old

/-- `if (updates.field) updateData.col = updates.field` for a nullable
string column. -/
def updOptField (old : Option String) (new? : Option String) : Option String :=
  match new? with
  | some s => if s == "" then old else some s
  | none => old

/-- The row mutation of `BookingModel.update`: always touch
`updated_at`; when a (truthy) status is supplied, write it and stamp
`confirmed_at` / `started_at` / `completed_at` when the new status is
`confirmed` / `in_progress` / `completed`; overwrite the remaining
columns gated on truthiness, except the two cost columns which are gated
on `!== undefined`. -/
def applyUpdate (b : Booking) (u : UpdateBookingRequest) (now : Nat) : Booking :=
  let b1 := { b with updated_at := now }
  let b2 :=
    match u.status with
    | none => b1
    | some s =>
        let bs := { b1 with status := s }
        match s with
        | .confirmed => { bs with confirmed_at := some now }
        | .in_progress => { bs with started_at := some now }
        | .completed => { bs with completed_at := some now }
        | _ => bs
  { b2 with
    booking_date := updField b2.booking_date u.bookingDate
    booking_time := updField b2.booking_time u.bookingTime
    service_description := updOptField b2.service_description u.serviceDescription
    special_instructions := updOptField b2.special_instructions u.specialInstructions
    priority := u.priority.getD b2.priority
    estimated_cost := match u.estimatedCost with | some v => some v | none => b2.estimated_cost
    actual_cost := match u.actualCost with | some v => some v | none => b2.actual_cost
    assigned_technician := updOptField b2.assigned_technician u.assignedTechnician
    notes := updOptField b2.notes u.notes }

/-- `BookingModel.update(id, updates)`:
`db('bookings').where('id', id).update(updateData).returning(['*'])`,
failing with `Booking not found` when no row matched. -/
def BookingModel.update (st : Store) (id : Nat) (u : UpdateBookingRequest) (now : Nat) :
    Except BErr (Booking × Store) :=
  match (st.bookings.filter fun b => b.id == id).head? with
  | none => .error .bookingNotFound
  | some b =>
      .ok (applyUpdate b u now,
        { st with bookings := st.bookings.map fun x =>
            if x.id == id then applyUpdate x u now else x })

/-- `BookingService.updateBookingStatus(id, status)`: delegates to
`BookingModel.update` with a status-only update. -/
def updateBookingStatus (st : Store) (id : Nat) (status : BookingStatus) (now : Nat) :
    Except BErr (Booking × Store) :=
  BookingModel.update st id { status := some status } now

/-- `BookingModel.delete(id)` (used by `cancelBooking`): sets the row's
status to `cancelled` and touches `updated_at`. -/
def BookingModel.delete (st : Store) (id : Nat) (now : Nat) : Except BErr Store :=
  if st.bookings.any (fun b => b.id == id) then
    .ok { st with bookings := st.bookings.map fun b =>
      if b.id == id then { b with status := .cancelled, updated_at := now } else b }
  else .error .bookingNotFound

/-- `orderBy('booking_date', 'asc').orderBy('booking_time', 'asc')` as a
Boolean total preorder on bookings. -/
def dateTimeLe (a b : Booking) : Bool :=
  if a.booking_date == b.booking_date then decide (a.booking_time ≤ b.booking_time)
  else decide (a.booking_date < b.booking_date)

/-- `BookingModel.getBookingsByDateRange(startDate, endDate, technician?)`:
bookings with `booking_date` in the inclusive range, excluding
`cancelled`/`no_show`, optionally filtered to one assigned technician,
ordered by date then time ascending. -/
def getBookingsByDateRange (st : Store) (startDate endDate : String)
    (technician : Option String := none) : List Booking :=
  let filtered := st.bookings.filter fun b =>
    decide (startDate ≤ b.booking_date) && decide (b.booking_date ≤ endDate) &&
      !(b.status == .cancelled || b.status == .no_show) &&
      (match technician with
       | some t => b.assigned_technician == some t
       | none => true)
  filtered.mergeSort dateTimeLe

/-- Date-range filter of `getBookingStats`: each bound applies only
when supplied. -/
def statsInRange (startDate endDate : Option String) (b : Booking) : Bool :=
  (match startDate with | some d => decide (d ≤ b.booking_date) | none => true) &&
  (match endDate with | some d => decide (b.booking_date ≤ d) | none => true)

/-- One accumulation step of SQL `SUM` over nullable values: a null is
skipped, a non-null value starts or extends the running sum. -/
def sqlSumStep (acc x : Option ℚ) : Option ℚ :=
  match x with
  | none => acc
  | some v =>
      match acc with
      | none => some v
      | some a => some (a + v)

/-- SQL `SUM` over a column of nullable values: nulls are skipped, and
the sum of no non-null values is `NULL`. -/
def sqlSumOpt (xs : List (Option ℚ)) : Option ℚ :=
  xs.foldl sqlSumStep none

/-- `CASE WHEN actual_cost IS NOT NULL THEN actual_cost ELSE estimated_cost END`. -/
def revenueCase (b : Booking) : Option ℚ :=
  match b.actual_cost with
  | some a => some a
  | none => b.estimated_cost

/-- Result row of `BookingModel.getBookingStats`. -/
structure BookingStats where
  total : Nat
  pending : Nat
  confirmed : Nat
  completed : Nat
  cancelled : Nat
  revenue : ℚ
deriving DecidableEq, Repr

/-- `BookingModel.getBookingStats(startDate?, endDate?)`: status counts
and `COALESCE(SUM(CASE WHEN actual_cost IS NOT NULL THEN actual_cost
ELSE estimated_cost END), 0)` over the bookings in the optional date
range. -/
def getBookingStats (st : Store) (startDate endDate : Option String) : BookingStats :=
  let matched := st.bookings.filter (statsInRange startDate endDate)
  { total := matched.length
    pending := matched.countP (fun b => b.status == .pending)
    confirmed := matched.countP (fun b => b.status == .confirmed)
    completed := matched.countP (fun b => b.status == .completed)
    cancelled := matched.countP (fun b => b.status == .cancelled)
    revenue := (sqlSumOpt (matched.map revenueCase)).getD 0 }

/-- The availability check of `BookingService.createBooking` in
isolation: the requested time is present in the slot list and marked
available.  This is the read phase of the check-then-insert sequence;
no lock or transaction covers it. -/
def slotFree (st : Store) (service date time : String) : Bool :=
  match getAvailableSlots st service date with
  | .error _ => false
  | .ok availableSlots =>
      match availableSlots.find? (fun slot => slot.time == time) with
      | none => false
      | some requestedTimeSlot => requestedTimeSlot.available

/-- The insert phase of `createBooking`: `BookingModel.create`, keeping
the store unchanged on failure. -/
def insertStep (st : Store) (req : CreateBookingRequest) (id now : Nat) :
    Except BErr Booking × Store :=
  match BookingModel.create st req none id now with
  | .error e => (.error e, st)
  | .ok (b, st') => (.ok b, st')

/-- Interleaved execution of two concurrent `createBooking` calls in
which both availability checks read the store before either insert
(check A, check B, insert A, insert B).  This interleaving is possible
because `BookingService.createBooking` takes no lock or transaction
around its check-then-insert sequence. -/
def raceCreate (st : Store) (reqA reqB : CreateBookingRequest) (idA idB now : Nat) :
    (Except BErr Booking × Except BErr Booking) × Store :=
  let okA := slotFree st reqA.service reqA.bookingDate reqA.bookingTime
  let okB := slotFree st reqB.service reqB.bookingDate reqB.bookingTime
  if okA then
    let ra := insertStep st reqA idA now
    if okB then
      let rb := insertStep ra.2 reqB idB now
      ((ra.1, rb.1), rb.2)
    else
      ((ra.1, .error .slotUnavailable), ra.2)
  else
    if okB then
      let rb := insertStep st reqB idB now
      ((.error .slotUnavailable, rb.1), rb.2)
    else
      ((.error .slotUnavailable, .error .slotUnavailable), st)

/-! ## Concrete fixtures (used by witnesses) -/

/-- A concrete service record: the §8 scenario's "Lock Installation",
duration 120 minutes. -/
def svcInstall : Service where
  id := 1
  name := "Lock Installation"
  base_price := 150
  estimated_duration := 120
  is_active := true
  is_available_for_booking := true

/-- A concrete pending booking of `svcInstall` on 2024-03-15 at 10:00
(occupying 10:00–12:00). -/
def bk1000 : Booking where
  id := 10
  user_id := none
  service_id := 1
  service := "Lock Installation"
  service_type := "lock_installation"
  booking_date := "2024-03-15"
  booking_time := "10:00"
  duration := 120
  status := .pending
  priority := .medium
  customer_name := "Alice"
  customer_phone := "+1-555-0001"
  customer_email := "alice@example.com"
  service_address := "1 Main St"
  service_description := none
  special_instructions := none
  estimated_cost := some 150
  actual_cost := none
  assigned_technician := none
  notes := none
  confirmed_at := none
  started_at := none
  completed_at := none
  created_at := 0
  updated_at := 0

/-- A cancelled booking on the same date and service. -/
def bkCancelled : Booking :=
  { bk1000 with id := 12, booking_time := "14:00", status := .cancelled }

/-- The store of the §8 scenario. -/
def st0 : Store where
  services := [svcInstall]
  bookings := [bk1000, bkCancelled]

/-- The availability result of `st0` on 2024-03-15 (09:00–11:00 conflict
with the 10:00 booking; the cancelled 14:00 booking is ignored). -/
def slots0 : List Slot :=
  [⟨"09:00", false⟩, ⟨"10:00", false⟩, ⟨"11:00", false⟩, ⟨"12:00", true⟩,
   ⟨"13:00", true⟩, ⟨"14:00", true⟩, ⟨"15:00", true⟩, ⟨"16:00", true⟩]

/-- A creation request at 09:30, a time not on the hour grid. -/
def req930 : CreateBookingRequest where
  service := "Lock Installation"
  serviceType := "lock_installation"
  bookingDate := "2024-03-15"
  bookingTime := "09:30"
  customerName := "Bob"
  customerPhone := "+1-555-0002"
  customerEmail := "bob@example.com"
  serviceAddress := "2 Main St"

/-- A creation request at the free 13:00 slot. -/
def req1300 : CreateBookingRequest :=
  { req930 with bookingTime := "13:00" }

/-- An update request whose only supplied field is the empty string for
`notes` (falsy, so the generic update path ignores it). -/
def uEmptyNotes : UpdateBookingRequest where
  notes := some ""

/-- `bk1000` after an update that supplied no effective field: only
`updated_at` moves. -/
def bkTouched : Booking :=
  { bk1000 with updated_at := 9 }

/-- The store after `BookingModel.update st0 10 uEmptyNotes 9`. -/
def stTouched : Store where
  services := [svcInstall]
  bookings := [bkTouched, bkCancelled]

/-- A completed booking with no actual cost and estimated cost 150. -/
def b150 : Booking :=
  { bk1000 with id := 21, status := .completed }

/-- A completed booking with estimated cost 200 and actual cost 180. -/
def b180 : Booking :=
  { bk1000 with
    id := 22
    status := .completed
    estimated_cost := some 200
    actual_cost := some 180 }

/-- Store for the revenue scenario of §8. -/
def stStats : Store where
  services := [svcInstall]
  bookings := [b150, b180]

/-- A store with no bookings at all (every slot free). -/
def stFree : Store where
  services := [svcInstall]
  bookings := []

/-- The booking created by `createBooking st0 req1300 none 11 5`. -/
def bkNew : Booking where
  id := 11
  user_id := none
  service_id := 1
  service := "Lock Installation"
  service_type := "lock_installation"
  booking_date := "2024-03-15"
  booking_time := "13:00"
  duration := 120
  status := .pending
  priority := .medium
  customer_name := "Bob"
  customer_phone := "+1-555-0002"
  customer_email := "bob@example.com"
  service_address := "2 Main St"
  service_description := none
  special_instructions := none
  estimated_cost := some 150
  actual_cost := none
  assigned_technician := none
  notes := none
  confirmed_at := none
  started_at := none
  completed_at := none
  created_at := 5
  updated_at := 5

/-- The store after that successful creation. -/
def stNew : Store where
  services := [svcInstall]
  bookings := [bk1000, bkCancelled, bkNew]

/-- The booking produced by confirming `bk1000` at time 9. -/
def bkConfirmed : Booking :=
  { bk1000 with status := .confirmed, confirmed_at := some 9, updated_at := 9 }

/-- The store after `updateBookingStatus st0 10 confirmed 9`. -/
def stConf : Store where
  services := [svcInstall]
  bookings := [bkConfirmed, bkCancelled]

/-- The store after cancelling booking 10 of `st0` at time 7. -/
def stDel : Store where
  services := [svcInstall]
  bookings := [{ bk1000 with status := .cancelled, updated_at := 7 }, bkCancelled]

/-! ## Helper lemmas -/

/-- When the service resolves, `getAvailableSlots` returns the mapped
grid. -/
theorem getAvailableSlots_eq (st : Store) (service date : String) (sd : Service)
    (hres : resolveService st.services service = some sd) :
    getAvailableSlots st service date = .ok (timeSlots.map fun t =>
      { time := t
        available := !hasConflict sd.estimated_duration
          (fetchBookings st.bookings service date) t }) := by
  unfold getAvailableSlots
  rw [hres]

/-- Inversion: an `ok` result of `getAvailableSlots` comes from a
resolved service and is the mapped grid. -/
theorem getAvailableSlots_ok_inv (st : Store) (service date : String) (slots : List Slot)
    (h : getAvailableSlots st service date = .ok slots) :
    ∃ sd, resolveService st.services service = some sd ∧
      slots = timeSlots.map fun t =>
        { time := t
          available := !hasConflict sd.estimated_duration
            (fetchBookings st.bookings service date) t } := by
  unfold getAvailableSlots at h
  cases hres : resolveService st.services service with
  | none => rw [hres] at h; exact absurd h (by simp)
  | some sd =>
      rw [hres] at h
      simp only [Except.ok.injEq] at h
      exact ⟨sd, rfl, h.symm⟩

/-- Evaluation of the availability engine on the §8 scenario store. -/
theorem avail_st0 : getAvailableSlots st0 "Lock Installation" "2024-03-15" = .ok slots0 := by
  rw [getAvailableSlots_eq st0 "Lock Installation" "2024-03-15" svcInstall rfl]
  have ht : timeSlots =
      ["09:00", "10:00", "11:00", "12:00", "13:00", "14:00", "15:00", "16:00"] := rfl
  have hf : fetchBookings st0.bookings "Lock Installation" "2024-03-15" = [bk1000] := rfl
  have e9 : hourOf "09:00" = 9 := rfl
  have e10 : hourOf "10:00" = 10 := rfl
  have e11 : hourOf "11:00" = 11 := rfl
  have e12 : hourOf "12:00" = 12 := rfl
  have e13 : hourOf "13:00" = 13 := rfl
  have e14 : hourOf "14:00" = 14 := rfl
  have e15 : hourOf "15:00" = 15 := rfl
  have e16 : hourOf "16:00" = 16 := rfl
  have hbt : bk1000.booking_time = "10:00" := rfl
  have hbd : bk1000.duration = 120 := rfl
  have hsd : svcInstall.estimated_duration = 120 := rfl
  rw [ht, hf]
  simp only [List.map_cons, List.map_nil, hasConflict, List.any_cons, List.any_nil,
    hbt, hbd, hsd, e9, e10, e11, e12, e13, e14, e15, e16, slots0,
    Except.ok.injEq, List.cons.injEq, Slot.mk.injEq, Bool.or_false,
    Bool.not_eq_false, Bool.not_eq_true, Bool.and_eq_true, Bool.and_eq_false_iff,
    decide_eq_true_eq, decide_eq_false_iff_not]
  norm_num

/-! ## Claims -/

/-- **C2.** For every active, bookable service (regardless of duration)
and every date, `getAvailableSlots` returns exactly 8 slots whose times
are "09:00", "10:00", …, "16:00" in that (strictly ascending) order,
each paired with an availability Boolean. -/
theorem availability_grid_spec (st : Store) (service date : String) (slots : List Slot)
    (h : getAvailableSlots st service date = .ok slots) :
    slots.map Slot.time =
      ["09:00", "10:00", "11:00", "12:00", "13:00", "14:00", "15:00", "16:00"] ∧
    slots.length = 8 := by
  obtain ⟨sd, _, rfl⟩ := getAvailableSlots_ok_inv st service date slots h
  constructor
  · simp only [List.map_map]
    rfl
  · simp only [List.length_map]
    rfl

/-- Witness for C2 at the concrete store `st0`. -/
theorem availability_grid_spec_witness :
    slots0.map Slot.time =
      ["09:00", "10:00", "11:00", "12:00", "13:00", "14:00", "15:00", "16:00"] ∧
    slots0.length = 8 :=
  availability_grid_spec st0 "Lock Installation" "2024-03-15" slots0 avail_st0

/-- **C1.** When the service resolves (active and bookable, duration
`D`), a returned slot with start hour `S` is unavailable iff some
fetched booking (same service name and date, status not cancelled /
no-show) with start hour `B` and stored duration `Db` satisfies
`S < B + Db/60` and `S + D/60 > B`, the start hours being the truncated
integer hours of the `"HH:MM"` strings. -/
theorem availability_conflict_spec (st : Store) (service date : String) (sd : Service)
    (slots : List Slot)
    (hres : resolveService st.services service = some sd)
    (h : getAvailableSlots st service date = .ok slots) :
    ∀ slot ∈ slots, slot.available = false ↔
      ∃ b ∈ fetchBookings st.bookings service date,
        (hourOf slot.time : ℚ) < hourOf b.booking_time + b.duration / 60 ∧
        (hourOf slot.time : ℚ) + sd.estimated_duration / 60 > hourOf b.booking_time := by
  obtain ⟨sd', hres', rfl⟩ := getAvailableSlots_ok_inv st service date slots h
  rw [hres] at hres'
  cases hres'
  intro slot hslot
  simp only [List.mem_map] at hslot
  obtain ⟨t, _, rfl⟩ := hslot
  simp [hasConflict, List.any_eq_true, gt_iff_lt]

/-- Witness for C1: the "09:00" slot of the §8 scenario is unavailable
because the 10:00 booking (duration 120) overlaps 09:00–11:00. -/
theorem availability_conflict_spec_witness :
    (Slot.mk "09:00" false).available = false ↔
      ∃ b ∈ fetchBookings st0.bookings "Lock Installation" "2024-03-15",
        (hourOf "09:00" : ℚ) < hourOf b.booking_time + b.duration / 60 ∧
        (hourOf "09:00" : ℚ) + svcInstall.estimated_duration / 60 > hourOf b.booking_time :=
  availability_conflict_spec st0 "Lock Installation" "2024-03-15" svcInstall slots0
    (by rfl) avail_st0 (Slot.mk "09:00" false) (by decide)

/-- **C3.** Under a resolved availability computation, `createBooking`
fails with `SlotUnavailable` exactly when the requested time is not an
available entry of the returned grid; in particular a requested time
absent from the grid's `"HH:00"` times (exact string comparison) is
rejected. -/
theorem createBooking_slotUnavailable_spec (st : Store) (req : CreateBookingRequest)
    (userId : Option Nat) (newId now : Nat) (slots : List Slot)
    (h : getAvailableSlots st req.service req.bookingDate = .ok slots) :
    ((createBooking st req userId newId now).1 = .error .slotUnavailable ↔
      ¬ ∃ slot ∈ slots, slot.time = req.bookingTime ∧ slot.available = true) ∧
    (req.bookingTime ∉ slots.map Slot.time →
      (createBooking st req userId newId now).1 = .error .slotUnavailable) := by
  have hiff : (createBooking st req userId newId now).1 = .error .slotUnavailable ↔
      ¬ ∃ slot ∈ slots, slot.time = req.bookingTime ∧ slot.available = true := by
    obtain ⟨sd, hres, hslots⟩ := getAvailableSlots_ok_inv _ _ _ _ h
    have hnodup : (slots.map Slot.time).Nodup := by
      have hmapt : slots.map Slot.time = timeSlots := by
        subst hslots
        simp only [List.map_map]
        rfl
      rw [hmapt]
      decide
    simp only [createBooking, h]
    cases hfind : slots.find? (fun slot => slot.time == req.bookingTime) with
    | none =>
        simp only [hfind]
        constructor
        · intro _ hex
          obtain ⟨slot, hmem, htime, _⟩ := hex
          have hne := List.find?_eq_none.mp hfind slot hmem
          simp [htime] at hne
        · intro _
          trivial
    | some slot =>
        simp only [hfind]
        have hmem := List.mem_of_find?_eq_some hfind
        have htime : slot.time = req.bookingTime := by
          have hp := List.find?_some hfind
          simpa using hp
        cases ha : slot.available with
        | false =>
            simp only [ha, Bool.not_false, if_true]
            constructor
            · intro _
              rintro ⟨slot', hmem', htime', ha'⟩
              have heq : slot = slot' :=
                List.inj_on_of_nodup_map hnodup hmem hmem' (htime.trans htime'.symm)
              rw [heq, ha'] at ha
              exact Bool.noConfusion ha
            · intro _
              trivial
        | true =>
            simp only [ha, Bool.not_true, if_false]
            constructor
            · intro hl
              cases hsvc : findServiceByName st.services req.service with
              | none =>
                  simp only [BookingModel.create, hsvc] at hl
                  exact absurd hl (by simp)
              | some sd2 =>
                  simp only [BookingModel.create, hsvc] at hl
                  exact absurd hl (by simp)
            · intro hnex
              exact absurd ⟨slot, hmem, htime, ha⟩ hnex
  refine ⟨hiff, ?_⟩
  intro hnotin
  apply hiff.mpr
  rintro ⟨slot, hmem, htime, _⟩
  exact hnotin (htime ▸ List.mem_map_of_mem Slot.time hmem)

/-- Witness for C3 at the off-grid request time "09:30". -/
theorem createBooking_slotUnavailable_spec_witness :
    (((createBooking st0 req930 none 11 5).1 = .error .slotUnavailable ↔
      ¬ ∃ slot ∈ slots0, slot.time = req930.bookingTime ∧ slot.available = true) ∧
    (req930.bookingTime ∉ slots0.map Slot.time →
      (createBooking st0 req930 none 11 5).1 = .error .slotUnavailable)) :=
  createBooking_slotUnavailable_spec st0 req930 none 11 5 slots0 avail_st0

/-- Evaluation: creating at the free 13:00 slot succeeds and appends
`bkNew`. -/
theorem create1300_eq : createBooking st0 req1300 none 11 5 = (.ok bkNew, stNew) := by
  have hs : req1300.service = "Lock Installation" := rfl
  have hd : req1300.bookingDate = "2024-03-15" := rfl
  simp only [createBooking, hs, hd, avail_st0]
  rfl

/-- Evaluation: creating at the off-grid 09:30 time fails with
`SlotUnavailable` and leaves the store unchanged. -/
theorem create930_eq : createBooking st0 req930 none 11 5 = (.error .slotUnavailable, st0) := by
  have hs : req930.service = "Lock Installation" := rfl
  have hd : req930.bookingDate = "2024-03-15" := rfl
  simp only [createBooking, hs, hd, avail_st0]
  rfl

/-- **C4.** A successful `createBooking` returns a booking with status
`pending`, duration copied from the service's `estimated_duration`,
estimated cost copied from the service's `base_price`, and priority
equal to the requested priority or `medium` when unspecified. -/
theorem createBooking_fields_spec (st : Store) (req : CreateBookingRequest)
    (userId : Option Nat) (newId now : Nat) (sd : Service) (b : Booking) (st' : Store)
    (hsvc : findServiceByName st.services req.service = some sd)
    (h : createBooking st req userId newId now = (.ok b, st')) :
    b.status = .pending ∧ b.duration = sd.estimated_duration ∧
    b.estimated_cost = some sd.base_price ∧ b.priority = req.priority.getD .medium := by
  cases hav : getAvailableSlots st req.service req.bookingDate with
  | error e =>
      simp only [createBooking, hav] at h
      exact absurd h (by simp)
  | ok slots =>
      simp only [createBooking, hav] at h
      cases hfind : slots.find? (fun slot => slot.time == req.bookingTime) with
      | none =>
          simp only [hfind] at h
          exact absurd h (by simp)
      | some slot =>
          simp only [hfind] at h
          cases ha : slot.available with
          | false =>
              simp only [ha, Bool.not_false, if_true] at h
              exact absurd h (by simp)
          | true =>
              simp only [ha, Bool.not_true, Bool.false_eq_true, if_false,
                BookingModel.create] at h
              cases hsvc' : findServiceByName st.services req.service with
              | none =>
                  simp only [hsvc'] at h
                  exact absurd h (by simp)
              | some sd' =>
                  rw [hsvc'] at hsvc
                  cases hsvc
                  simp only [hsvc', Prod.mk.injEq, Except.ok.injEq] at h
                  obtain ⟨hb, _⟩ := h
                  subst hb
                  exact ⟨rfl, rfl, rfl, rfl⟩

/-- Witness for C4 at the concrete creation `create1300_eq`. -/
theorem createBooking_fields_spec_witness :
    bkNew.status = .pending ∧ bkNew.duration = svcInstall.estimated_duration ∧
    bkNew.estimated_cost = some svcInstall.base_price ∧
    bkNew.priority = req1300.priority.getD .medium :=
  createBooking_fields_spec st0 req1300 none 11 5 svcInstall bkNew stNew rfl create1300_eq

/-- **C9.** Every error result of `createBooking` leaves the booking
store unchanged: the insert is only reached after the availability
check succeeds. -/
theorem createBooking_error_frame_spec (st : Store) (req : CreateBookingRequest)
    (userId : Option Nat) (newId now : Nat) (e : BErr) (st' : Store)
    (h : createBooking st req userId newId now = (.error e, st')) : st' = st := by
  cases hav : getAvailableSlots st req.service req.bookingDate with
  | error e' =>
      simp only [createBooking, hav, Prod.mk.injEq] at h
      exact h.2.symm
  | ok slots =>
      simp only [createBooking, hav] at h
      cases hfind : slots.find? (fun slot => slot.time == req.bookingTime) with
      | none =>
          simp only [hfind, Prod.mk.injEq] at h
          exact h.2.symm
      | some slot =>
          simp only [hfind] at h
          cases ha : slot.available with
          | false =>
              simp only [ha, Bool.not_false, if_true, Prod.mk.injEq] at h
              exact h.2.symm
          | true =>
              simp only [ha, Bool.not_true, Bool.false_eq_true, if_false,
                BookingModel.create] at h
              cases hsvc : findServiceByName st.services req.service with
              | none =>
                  simp only [hsvc, Prod.mk.injEq] at h
                  exact h.2.symm
              | some sd =>
                  simp only [hsvc] at h
                  exact absurd h (by simp)

/-- Witness for C9 at the failing 09:30 request. -/
theorem createBooking_error_frame_spec_witness : st0 = st0 :=
  createBooking_error_frame_spec st0 req930 none 11 5 .slotUnavailable st0 create930_eq

/-! ### Field-wise characterization of `applyUpdate` -/

/-- The written status is the supplied one, else unchanged. -/
theorem applyUpdate_status (b : Booking) (u : UpdateBookingRequest) (now : Nat) :
    (applyUpdate b u now).status = u.status.getD b.status := by
  cases hs : u.status with
  | none => simp [applyUpdate, hs]
  | some s => cases s <;> simp [applyUpdate, hs]

/-- `confirmed_at` is stamped exactly when the new status is
`confirmed`. -/
theorem applyUpdate_confirmed_at (b : Booking) (u : UpdateBookingRequest) (now : Nat) :
    (applyUpdate b u now).confirmed_at =
      (if u.status = some .confirmed then some now else b.confirmed_at) := by
  cases hs : u.status with
  | none => simp [applyUpdate, hs]
  | some s => cases s <;> simp [applyUpdate, hs]

/-- `started_at` is stamped exactly when the new status is
`in_progress`. -/
theorem applyUpdate_started_at (b : Booking) (u : UpdateBookingRequest) (now : Nat) :
    (applyUpdate b u now).started_at =
      (if u.status = some .in_progress then some now else b.started_at) := by
  cases hs : u.status with
  | none => simp [applyUpdate, hs]
  | some s => cases s <;> simp [applyUpdate, hs]

/-- `completed_at` is stamped exactly when the new status is
`completed`. -/
theorem applyUpdate_completed_at (b : Booking) (u : UpdateBookingRequest) (now : Nat) :
    (applyUpdate b u now).completed_at =
      (if u.status = some .completed then some now else b.completed_at) := by
  cases hs : u.status with
  | none => simp [applyUpdate, hs]
  | some s => cases s <;> simp [applyUpdate, hs]

/-- The non-status columns are independent of the status branch. -/
theorem applyUpdate_booking_date (b : Booking) (u : UpdateBookingRequest) (now : Nat) :
    (applyUpdate b u now).booking_date = updField b.booking_date u.bookingDate := by
  cases hs : u.status with
  | none => simp [applyUpdate, hs]
  | some s => cases s <;> simp [applyUpdate, hs]

theorem applyUpdate_booking_time (b : Booking) (u : UpdateBookingRequest) (now : Nat) :
    (applyUpdate b u now).booking_time = updField b.booking_time u.bookingTime := by
  cases hs : u.status with
  | none => simp [applyUpdate, hs]
  | some s => cases s <;> simp [applyUpdate, hs]

theorem applyUpdate_service_description (b : Booking) (u : UpdateBookingRequest) (now : Nat) :
    (applyUpdate b u now).service_description =
      updOptField b.service_description u.serviceDescription := by
  cases hs : u.status with
  | none => simp [applyUpdate, hs]
  | some s => cases s <;> simp [applyUpdate, hs]

theorem applyUpdate_special_instructions (b : Booking) (u : UpdateBookingRequest) (now : Nat) :
    (applyUpdate b u now).special_instructions =
      updOptField b.special_instructions u.specialInstructions := by
  cases hs : u.status with
  | none => simp [applyUpdate, hs]
  | some s => cases s <;> simp [applyUpdate, hs]

theorem applyUpdate_priority (b : Booking) (u : UpdateBookingRequest) (now : Nat) :
    (applyUpdate b u now).priority = u.priority.getD b.priority := by
  cases hs : u.status with
  | none => simp [applyUpdate, hs]
  | some s => cases s <;> simp [applyUpdate, hs]

theorem applyUpdate_estimated_cost (b : Booking) (u : UpdateBookingRequest) (now : Nat) :
    (applyUpdate b u now).estimated_cost =
      (match u.estimatedCost with
       | some v => some v
       | none => b.estimated_cost) := by
  cases hs : u.status with
  | none => simp [applyUpdate, hs]
  | some s => cases s <;> simp [applyUpdate, hs]

theorem applyUpdate_actual_cost (b : Booking) (u : UpdateBookingRequest) (now : Nat) :
    (applyUpdate b u now).actual_cost =
      (match u.actualCost with
       | some v => some v
       | none => b.actual_cost) := by
  cases hs : u.status with
  | none => simp [applyUpdate, hs]
  | some s => cases s <;> simp [applyUpdate, hs]

theorem applyUpdate_assigned_technician (b : Booking) (u : UpdateBookingRequest) (now : Nat) :
    (applyUpdate b u now).assigned_technician =
      updOptField b.assigned_technician u.assignedTechnician := by
  cases hs : u.status with
  | none => simp [applyUpdate, hs]
  | some s => cases s <;> simp [applyUpdate, hs]

theorem applyUpdate_notes (b : Booking) (u : UpdateBookingRequest) (now : Nat) :
    (applyUpdate b u now).notes = updOptField b.notes u.notes := by
  cases hs : u.status with
  | none => simp [applyUpdate, hs]
  | some s => cases s <;> simp [applyUpdate, hs]

theorem applyUpdate_id (b : Booking) (u : UpdateBookingRequest) (now : Nat) :
    (applyUpdate b u now).id = b.id := by
  cases hs : u.status with
  | none => simp [applyUpdate, hs]
  | some s => cases s <;> simp [applyUpdate, hs]

theorem applyUpdate_frame (b : Booking) (u : UpdateBookingRequest) (now : Nat) :
    (applyUpdate b u now).user_id = b.user_id ∧
    (applyUpdate b u now).service_id = b.service_id ∧
    (applyUpdate b u now).service = b.service ∧
    (applyUpdate b u now).service_type = b.service_type ∧
    (applyUpdate b u now).duration = b.duration ∧
    (applyUpdate b u now).customer_name = b.customer_name ∧
    (applyUpdate b u now).customer_phone = b.customer_phone ∧
    (applyUpdate b u now).customer_email = b.customer_email ∧
    (applyUpdate b u now).service_address = b.service_address ∧
    (applyUpdate b u now).created_at = b.created_at ∧
    (applyUpdate b u now).updated_at = now := by
  cases hs : u.status with
  | none => simp [applyUpdate, hs]
  | some s => cases s <;> simp [applyUpdate, hs]

/-- A truthiness-gated nullable column never loses its value: it stays
unchanged or receives a non-empty string. -/
theorem updOptField_never_cleared (old : Option String) (new? : Option String) :
    updOptField old new? = old ∨ ∃ v, updOptField old new? = some v ∧ v ≠ "" := by
  cases new? with
  | none => exact Or.inl rfl
  | some v =>
      by_cases hv : v == ""
      · simp [updOptField, hv]
      · refine Or.inr ⟨v, ?_, by simpa using hv⟩
        simp [updOptField, hv]

/-- Inversion of a successful `BookingModel.update`. -/
theorem BookingModel.update_ok_inv (st : Store) (id : Nat) (u : UpdateBookingRequest)
    (now : Nat) (b b' : Booking) (st' : Store)
    (hfind : (st.bookings.filter fun x => x.id == id).head? = some b)
    (h : BookingModel.update st id u now = .ok (b', st')) :
    b' = applyUpdate b u now := by
  unfold BookingModel.update at h
  rw [hfind] at h
  simp only [Except.ok.injEq, Prod.mk.injEq] at h
  exact h.1.symm

/-- **C6.** `updateBookingStatus(id, s)` writes status `s` and stamps
`confirmed_at` / `started_at` / `completed_at` with the current time
exactly when `s` is `confirmed` / `in_progress` / `completed`, leaving
the other transition timestamps unchanged; consequently a previously
set transition timestamp is never cleared by a later status update. -/
theorem updateStatus_timestamps_spec (st : Store) (id : Nat) (s : BookingStatus) (now : Nat)
    (b b' : Booking) (st' : Store)
    (hfind : (st.bookings.filter fun x => x.id == id).head? = some b)
    (h : updateBookingStatus st id s now = .ok (b', st')) :
    b'.status = s ∧
    b'.confirmed_at = (if s = .confirmed then some now else b.confirmed_at) ∧
    b'.started_at = (if s = .in_progress then some now else b.started_at) ∧
    b'.completed_at = (if s = .completed then some now else b.completed_at) ∧
    (b.confirmed_at.isSome → b'.confirmed_at.isSome) ∧
    (b.started_at.isSome → b'.started_at.isSome) ∧
    (b.completed_at.isSome → b'.completed_at.isSome) := by
  have hb' : b' = applyUpdate b { status := some s } now :=
    BookingModel.update_ok_inv st id { status := some s } now b b' st' hfind h
  subst hb'
  refine ⟨?_, ?_, ?_, ?_, ?_, ?_, ?_⟩
  · rw [applyUpdate_status]
    rfl
  · rw [applyUpdate_confirmed_at]
    simp
  · rw [applyUpdate_started_at]
    simp
  · rw [applyUpdate_completed_at]
    simp
  · rw [applyUpdate_confirmed_at]
    intro hsome
    split <;> simp [hsome]
  · rw [applyUpdate_started_at]
    intro hsome
    split <;> simp [hsome]
  · rw [applyUpdate_completed_at]
    intro hsome
    split <;> simp [hsome]

/-- Witness for C6: confirming booking 10 of `st0` at time 9. -/
theorem updateStatus_timestamps_spec_witness :
    bkConfirmed.status = .confirmed ∧
    bkConfirmed.confirmed_at =
      (if BookingStatus.confirmed = .confirmed then some 9 else bk1000.confirmed_at) ∧
    bkConfirmed.started_at =
      (if BookingStatus.confirmed = .in_progress then some 9 else bk1000.started_at) ∧
    bkConfirmed.completed_at =
      (if BookingStatus.confirmed = .completed then some 9 else bk1000.completed_at) ∧
    (bk1000.confirmed_at.isSome → bkConfirmed.confirmed_at.isSome) ∧
    (bk1000.started_at.isSome → bkConfirmed.started_at.isSome) ∧
    (bk1000.completed_at.isSome → bkConfirmed.completed_at.isSome) :=
  updateStatus_timestamps_spec st0 10 .confirmed 9 bk1000 bkConfirmed stConf rfl rfl

/-- **C5.** A booking with status `cancelled` or `no_show` is excluded
from the conflict set consulted by the availability engine and from
`getBookingsByDateRange`; moreover after `cancelBooking(id)` no booking
with that id is consulted by the conflict check any more. -/
theorem cancelled_excluded_spec (b : Booking)
    (hb : b.status = .cancelled ∨ b.status = .no_show)
    (bookings : List Booking) (service date : String)
    (st st2 st' : Store) (s e : String) (tech : Option String) (id now : Nat) :
    b ∉ fetchBookings bookings service date ∧
    b ∉ getBookingsByDateRange st s e tech ∧
    (BookingModel.delete st2 id now = .ok st' →
      ∀ x ∈ fetchBookings st'.bookings service date, x.id ≠ id) := by
  refine ⟨?_, ?_, ?_⟩
  · intro hmem
    rw [fetchBookings, List.mem_filter] at hmem
    rcases hb with hb | hb <;> simp [hb] at hmem
  · intro hmem
    rw [getBookingsByDateRange] at hmem
    simp only [List.mem_mergeSort, List.mem_filter] at hmem
    rcases hb with hb | hb <;> simp [hb] at hmem
  · intro hdel x hx hxid
    unfold BookingModel.delete at hdel
    by_cases hany : st2.bookings.any (fun y => y.id == id) = true
    · rw [if_pos hany] at hdel
      simp only [Except.ok.injEq] at hdel
      subst hdel
      rw [fetchBookings, List.mem_filter] at hx
      obtain ⟨hmem, hpred⟩ := hx
      simp only [List.mem_map] at hmem
      obtain ⟨y, _, hxy⟩ := hmem
      by_cases hyid : (y.id == id) = true
      · rw [if_pos hyid] at hxy
        subst hxy
        simp at hpred
      · rw [if_neg hyid] at hxy
        subst hxy
        exact hyid (by simp [hxid])
    · rw [if_neg hany] at hdel
      exact absurd hdel (by simp)

/-- Witness for C5 at the concrete cancelled booking `bkCancelled` and
the concrete cancellation of booking 10. -/
theorem cancelled_excluded_spec_witness :
    bkCancelled ∉ fetchBookings st0.bookings "Lock Installation" "2024-03-15" ∧
    bkCancelled ∉ getBookingsByDateRange st0 "2024-03-01" "2024-03-31" none ∧
    (BookingModel.delete st0 10 7 = .ok stDel →
      ∀ x ∈ fetchBookings stDel.bookings "Lock Installation" "2024-03-15", x.id ≠ 10) :=
  cancelled_excluded_spec bkCancelled (Or.inl rfl) st0.bookings "Lock Installation"
    "2024-03-15" st0 st0 stDel "2024-03-01" "2024-03-31" none 10 7

/-- **C10.** On the generic update path, every omitted field is left
unchanged; the truthiness-gated optional text fields can never be
cleared back to null or empty; and apart from the supplied fields only
`updated_at` and the status-transition timestamps are modified. -/
theorem update_frame_spec (st : Store) (id : Nat) (u : UpdateBookingRequest) (now : Nat)
    (b b' : Booking) (st' : Store)
    (hfind : (st.bookings.filter fun x => x.id == id).head? = some b)
    (h : BookingModel.update st id u now = .ok (b', st')) :
    (u.status = none → b'.status = b.status ∧ b'.confirmed_at = b.confirmed_at ∧
      b'.started_at = b.started_at ∧ b'.completed_at = b.completed_at) ∧
    (u.bookingDate = none → b'.booking_date = b.booking_date) ∧
    (u.bookingTime = none → b'.booking_time = b.booking_time) ∧
    (u.serviceDescription = none → b'.service_description = b.service_description) ∧
    (u.specialInstructions = none → b'.special_instructions = b.special_instructions) ∧
    (u.priority = none → b'.priority = b.priority) ∧
    (u.estimatedCost = none → b'.estimated_cost = b.estimated_cost) ∧
    (u.actualCost = none → b'.actual_cost = b.actual_cost) ∧
    (u.assignedTechnician = none → b'.assigned_technician = b.assigned_technician) ∧
    (u.notes = none → b'.notes = b.notes) ∧
    (b'.notes = b.notes ∨ ∃ v, b'.notes = some v ∧ v ≠ "") ∧
    (b'.assigned_technician = b.assigned_technician ∨
      ∃ v, b'.assigned_technician = some v ∧ v ≠ "") ∧
    (b'.special_instructions = b.special_instructions ∨
      ∃ v, b'.special_instructions = some v ∧ v ≠ "") ∧
    (b'.service_description = b.service_description ∨
      ∃ v, b'.service_description = some v ∧ v ≠ "") ∧
    b'.id = b.id ∧ b'.user_id = b.user_id ∧ b'.service_id = b.service_id ∧
    b'.service = b.service ∧ b'.service_type = b.service_type ∧
    b'.duration = b.duration ∧ b'.customer_name = b.customer_name ∧
    b'.customer_phone = b.customer_phone ∧ b'.customer_email = b.customer_email ∧
    b'.service_address = b.service_address ∧ b'.created_at = b.created_at ∧
    b'.updated_at = now := by
  have hb' := BookingModel.update_ok_inv st id u now b b' st' hfind h
  subst hb'
  obtain ⟨f1, f2, f3, f4, f5, f6, f7, f8, f9, f10, f11⟩ := applyUpdate_frame b u now
  refine ⟨?_, ?_, ?_, ?_, ?_, ?_, ?_, ?_, ?_, ?_, ?_, ?_, ?_, ?_,
    applyUpdate_id b u now, f1, f2, f3, f4, f5, f6, f7, f8, f9, f10, f11⟩
  · intro h0
    rw [applyUpdate_status, applyUpdate_confirmed_at, applyUpdate_started_at,
      applyUpdate_completed_at, h0]
    simp
  · intro h0
    rw [applyUpdate_booking_date, h0]
    rfl
  · intro h0
    rw [applyUpdate_booking_time, h0]
    rfl
  · intro h0
    rw [applyUpdate_service_description, h0]
    rfl
  · intro h0
    rw [applyUpdate_special_instructions, h0]
    rfl
  · intro h0
    rw [applyUpdate_priority, h0]
    rfl
  · intro h0
    rw [applyUpdate_estimated_cost, h0]
  · intro h0
    rw [applyUpdate_actual_cost, h0]
  · intro h0
    rw [applyUpdate_assigned_technician, h0]
    rfl
  · intro h0
    rw [applyUpdate_notes, h0]
    rfl
  · rw [applyUpdate_notes]
    exact updOptField_never_cleared _ _
  · rw [applyUpdate_assigned_technician]
    exact updOptField_never_cleared _ _
  · rw [applyUpdate_special_instructions]
    exact updOptField_never_cleared _ _
  · rw [applyUpdate_service_description]
    exact updOptField_never_cleared _ _

/-- Witness for C10: updating booking 10 with an update whose only
supplied field is the falsy empty `notes`. -/
theorem update_frame_spec_witness :
    ((uEmptyNotes.status = none → bkTouched.status = bk1000.status ∧
      bkTouched.confirmed_at = bk1000.confirmed_at ∧
      bkTouched.started_at = bk1000.started_at ∧
      bkTouched.completed_at = bk1000.completed_at) ∧
    (uEmptyNotes.bookingDate = none → bkTouched.booking_date = bk1000.booking_date) ∧
    (uEmptyNotes.bookingTime = none → bkTouched.booking_time = bk1000.booking_time) ∧
    (uEmptyNotes.serviceDescription = none →
      bkTouched.service_description = bk1000.service_description) ∧
    (uEmptyNotes.specialInstructions = none →
      bkTouched.special_instructions = bk1000.special_instructions) ∧
    (uEmptyNotes.priority = none → bkTouched.priority = bk1000.priority) ∧
    (uEmptyNotes.estimatedCost = none → bkTouched.estimated_cost = bk1000.estimated_cost) ∧
    (uEmptyNotes.actualCost = none → bkTouched.actual_cost = bk1000.actual_cost) ∧
    (uEmptyNotes.assignedTechnician = none →
      bkTouched.assigned_technician = bk1000.assigned_technician) ∧
    (uEmptyNotes.notes = none → bkTouched.notes = bk1000.notes) ∧
    (bkTouched.notes = bk1000.notes ∨ ∃ v, bkTouched.notes = some v ∧ v ≠ "") ∧
    (bkTouched.assigned_technician = bk1000.assigned_technician ∨
      ∃ v, bkTouched.assigned_technician = some v ∧ v ≠ "") ∧
    (bkTouched.special_instructions = bk1000.special_instructions ∨
      ∃ v, bkTouched.special_instructions = some v ∧ v ≠ "") ∧
    (bkTouched.service_description = bk1000.service_description ∨
      ∃ v, bkTouched.service_description = some v ∧ v ≠ "") ∧
    bkTouched.id = bk1000.id ∧ bkTouched.user_id = bk1000.user_id ∧
    bkTouched.service_id = bk1000.service_id ∧
    bkTouched.service = bk1000.service ∧ bkTouched.service_type = bk1000.service_type ∧
    bkTouched.duration = bk1000.duration ∧
    bkTouched.customer_name = bk1000.customer_name ∧
    bkTouched.customer_phone = bk1000.customer_phone ∧
    bkTouched.customer_email = bk1000.customer_email ∧
    bkTouched.service_address = bk1000.service_address ∧
    bkTouched.created_at = bk1000.created_at ∧
    bkTouched.updated_at = 9) :=
  update_frame_spec st0 10 uEmptyNotes 9 bk1000 bkTouched stTouched rfl rfl

/-- SQL `SUM` with null-skipping, coalesced to 0, equals the plain sum
with nulls read as 0. -/
theorem sqlSumOpt_getD_zero (xs : List (Option ℚ)) :
    (sqlSumOpt xs).getD 0 = (xs.map (fun x => x.getD 0)).sum := by
  have key : ∀ (ys : List (Option ℚ)) (acc : Option ℚ),
      (ys.foldl sqlSumStep acc).getD 0 =
        acc.getD 0 + (ys.map (fun x => x.getD 0)).sum := by
    intro ys
    induction ys with
    | nil =>
        intro acc
        simp
    | cons x xs ih =>
        intro acc
        rw [List.foldl_cons, ih (sqlSumStep acc x)]
        have hstep : (sqlSumStep acc x).getD 0 = acc.getD 0 + x.getD 0 := by
          cases x with
          | none => simp [sqlSumStep]
          | some v => cases acc <;> simp [sqlSumStep]
        rw [hstep, List.map_cons, List.sum_cons]
        ring
  rw [sqlSumOpt, key]
  simp

/-- **C8.** The revenue of `getBookingStats` is the sum, over the
bookings whose `booking_date` lies in the optional range, of
`actual_cost` when non-null else `estimated_cost`, a null contribution
counting as 0; in particular the §8 scenario (estimated 150 with no
actual cost, plus actual cost 180) yields revenue 330. -/
theorem stats_revenue_spec :
    (∀ (st : Store) (startDate endDate : Option String),
      (getBookingStats st startDate endDate).revenue =
        ((st.bookings.filter (statsInRange startDate endDate)).map
          (fun b => b.actual_cost.getD (b.estimated_cost.getD 0))).sum) ∧
    (getBookingStats stStats none none).revenue = 330 := by
  have hcase : (fun x => Option.getD x 0) ∘ revenueCase =
      fun b => b.actual_cost.getD (b.estimated_cost.getD 0) := by
    funext b
    cases hb : b.actual_cost <;> simp [revenueCase, hb]
  have hgen : ∀ (st : Store) (startDate endDate : Option String),
      (getBookingStats st startDate endDate).revenue =
        ((st.bookings.filter (statsInRange startDate endDate)).map
          (fun b => b.actual_cost.getD (b.estimated_cost.getD 0))).sum := by
    intro st sd ed
    simp only [getBookingStats]
    rw [sqlSumOpt_getD_zero, List.map_map, hcase]
  refine ⟨hgen, ?_⟩
  rw [hgen]
  have hf : stStats.bookings.filter (statsInRange none none) = [b150, b180] := rfl
  rw [hf]
  have v1 : b150.actual_cost.getD (b150.estimated_cost.getD 0) = 150 := rfl
  have v2 : b180.actual_cost.getD (b180.estimated_cost.getD 0) = 180 := rfl
  rw [List.map_cons, List.map_cons, List.map_nil, v1, v2]
  norm_num

/-- If the availability path resolves the service, the unfiltered
name-only lookup of `BookingModel.create` also resolves. -/
theorem findServiceByName_of_resolve (services : List Service) (name : String) (sd : Service)
    (h : resolveService services name = some sd) :
    ∃ sd', findServiceByName services name = some sd' := by
  unfold resolveService at h
  unfold findServiceByName
  cases hf : (services.filter fun s => s.name == name) with
  | nil =>
      exfalso
      have hsub : ∀ s ∈ services,
          ¬(s.name == name && s.is_active && s.is_available_for_booking) = true := by
        intro s hs hc
        have hn : (s.name == name) = true := by
          simp only [Bool.and_eq_true] at hc
          exact hc.1.1
        have hmem : s ∈ services.filter fun s => s.name == name :=
          List.mem_filter.mpr ⟨hs, hn⟩
        rw [hf] at hmem
        exact absurd hmem (List.not_mem_nil s)
      have hnil : (services.filter fun s =>
          s.name == name && s.is_active && s.is_available_for_booking) = [] :=
        List.filter_eq_nil_iff.mpr hsub
      rw [hnil] at h
      exact absurd h (by simp)
  | cons a l =>
      exact ⟨a, rfl⟩

/-- **C7.** No mutual exclusion protects the check-then-insert sequence
of `createBooking`: for two concurrent requests for the same service,
date and time, the interleaving in which both availability checks read
the store before either insert lets both inserts go through, leaving
two distinct non-cancelled bookings for the same service, date and time
in the conflict set — a double-booked slot. -/
theorem race_double_booking_spec (st : Store) (req : CreateBookingRequest)
    (idA idB now : Nat) (hid : idA ≠ idB)
    (hfree : slotFree st req.service req.bookingDate req.bookingTime = true) :
    ∃ bA bB st',
      raceCreate st req req idA idB now = ((.ok bA, .ok bB), st') ∧
      bA ∈ fetchBookings st'.bookings req.service req.bookingDate ∧
      bB ∈ fetchBookings st'.bookings req.service req.bookingDate ∧
      bA ≠ bB ∧
      bA.booking_time = req.bookingTime ∧ bB.booking_time = req.bookingTime := by
  have hav : ∃ slots, getAvailableSlots st req.service req.bookingDate = .ok slots := by
    cases h' : getAvailableSlots st req.service req.bookingDate with
    | error e =>
        unfold slotFree at hfree
        rw [h'] at hfree
        exact absurd hfree (by simp)
    | ok slots => exact ⟨slots, rfl⟩
  obtain ⟨slots, hav⟩ := hav
  obtain ⟨sd, hres, _⟩ := getAvailableSlots_ok_inv _ _ _ _ hav
  obtain ⟨sd2, hfind2⟩ := findServiceByName_of_resolve _ _ _ hres
  refine ⟨newBookingRecord req none sd2 idA now, newBookingRecord req none sd2 idB now,
    { st with bookings :=
        (st.bookings ++ [newBookingRecord req none sd2 idA now]) ++
          [newBookingRecord req none sd2 idB now] }, ?_, ?_, ?_, ?_, rfl, rfl⟩
  · simp only [raceCreate, hfree, if_true, insertStep, BookingModel.create, hfind2]
  · simp [fetchBookings, List.mem_filter, List.mem_append, newBookingRecord]
  · simp [fetchBookings, List.mem_filter, List.mem_append, newBookingRecord]
  · intro heq
    exact hid (congrArg Booking.id heq)

/-- Witness for C7: two concurrent requests for the free 13:00 slot on
an empty store both succeed. -/
theorem race_double_booking_spec_witness :
    ∃ bA bB st',
      raceCreate stFree req1300 req1300 1 2 5 = ((.ok bA, .ok bB), st') ∧
      bA ∈ fetchBookings st'.bookings req1300.service req1300.bookingDate ∧
      bB ∈ fetchBookings st'.bookings req1300.service req1300.bookingDate ∧
      bA ≠ bB ∧
      bA.booking_time = req1300.bookingTime ∧ bB.booking_time = req1300.bookingTime :=
  race_double_booking_spec stFree req1300 1 2 5 (by decide) rfl

end Ashlock
